import Mathlib

/-!
Shallow embedding of the notification dispatch core of the repository
(Django app `notifications_app`): the `NotificationJob` data model
(`models.py`), the enqueue backend (`backends/database_queue.py`), the
worker batch processor
(`management/commands/run_notification_worker.py`), the delivery-handler
dispatch (`delivery_handlers/`) and the realtime consumer
(`consumers.py`).  Database rows are Lean structures, the job table is a
`List`, timestamps are integers, and each persisted write
(`job.save(update_fields=[...])`) is modelled explicitly so that the set
of columns actually written matches the source.
-/

/-- Status string constants from `NotificationJob` in `models.py`. -/
def STATUS_PENDING : String := "pending"

/-- Constant STATUS_SENDING = "sending" from `models.py`. -/
def STATUS_SENDING : String := "sending"

/-- Constant STATUS_SENT = "sent" from `models.py`. -/
def STATUS_SENT : String := "sent"

/-- Constant STATUS_FAILED = "failed" from `models.py`. -/
def STATUS_FAILED : String := "failed"

/-- Constant CHANNEL_EMAIL = "email" from `models.py`. -/
def CHANNEL_EMAIL : String := "email"

/-- Constant CHANNEL_IN_APP = "in_app" from `models.py`. -/
def CHANNEL_IN_APP : String := "in_app"

/-- A scalar Python value, as far as the JSON payload entries of this
core need: `None`, integers, strings and booleans. -/
inductive PyValue where
  | none : PyValue
  | int (n : Int) : PyValue
  | str (s : String) : PyValue
  | bool (b : Bool) : PyValue
deriving Repr, DecidableEq

/-- The `message_data` JSONField payload: a string-keyed dict of scalar
values. -/
abbrev MessageData := List (String × PyValue)

/-- Python `d.get(key)` on a dict: the value stored under `key`, or `None`
when the key is absent. -/
def dictGet (d : MessageData) (key : String) : PyValue :=
  match d.find? (fun kv => kv.1 == key) with
  | some kv => kv.2
  | Option.none => PyValue.none

/-- Python truthiness of a value, as used by `if job_id:` in
`consumers.py`. -/
def PyValue.truthy : PyValue → Bool
  | PyValue.none => false
  | PyValue.int n => n != 0
  | PyValue.str s => s != ""
  | PyValue.bool b => b

/-- An argument of a Python call in this core: either a scalar value or a
whole `message_data` dict passed through unchanged. -/
inductive CallArg where
  | val (v : PyValue) : CallArg
  | dict (d : MessageData) : CallArg
deriving Repr, DecidableEq

/-- One row of the `NotificationJob` table (`models.py`).  `scheduled_at`,
`sent_at` and `created_at` are timestamps modelled as integers;
`auto_now_add` columns are filled with the creation time at insert.  The
`updated_at` bookkeeping column is omitted: no behaviour of the core reads
it. -/
structure NotificationJob where
  id : Int
  recipient_id : Int
  channel : String
  notification_type : String
  message_data : MessageData
  status : String
  retries_count : Nat
  max_retries : Nat
  failed_reason : Option String
  scheduled_at : Int
  sent_at : Option Int
  created_at : Int
  is_read : Bool
deriving Repr, DecidableEq

/-- One row of the `UserCommunicationPreference` table (`models.py`). -/
structure UserCommunicationPreference where
  user_id : Int
  prefers_email : Bool
  prefers_in_app : Bool
  default_channel : String
deriving Repr, DecidableEq

/-- The columns that the worker ever names in a
`job.save(update_fields=[...])` call. -/
inductive Col where
  | status : Col
  | retries_count : Col
  | failed_reason : Col
  | scheduled_at : Col
  | sent_at : Col
deriving Repr, DecidableEq

/-- Copy one named column from the in-memory object `mem` into the
persisted row `db`. -/
def applyCol (mem : NotificationJob) (db : NotificationJob) : Col → NotificationJob
  | Col.status => { db with status := mem.status }
  | Col.retries_count => { db with retries_count := mem.retries_count }
  | Col.failed_reason => { db with failed_reason := mem.failed_reason }
  | Col.scheduled_at => { db with scheduled_at := mem.scheduled_at }
  | Col.sent_at => { db with sent_at := mem.sent_at }

/-- Model of `job.save(update_fields=fields)`: the persisted row `db` receives
exactly the listed columns of the in-memory object `mem`; every other
column keeps its stored value. -/
def saveFields (db : NotificationJob) (mem : NotificationJob) (fields : List Col) : NotificationJob :=
  fields.foldl (applyCol mem) db

/-- The two delivery handler classes
(`delivery_handlers/email_handler.py`, `delivery_handlers/in_app_handler.py`). -/
inductive HandlerClass where
  | EmailDeliveryHandler : HandlerClass
  | InAppDeliveryHandler : HandlerClass
deriving Repr, DecidableEq

/-- Lookup `DELIVERY_HANDLERS.get(channel)` from `run_notification_worker.py`:
the static channel-to-handler mapping, `None` for unmapped channels. -/
def DELIVERY_HANDLERS_get (channel : String) : Option HandlerClass :=
  if channel == CHANNEL_EMAIL then some HandlerClass.EmailDeliveryHandler
  else if channel == CHANNEL_IN_APP then some HandlerClass.InAppDeliveryHandler
  else Option.none

/-- Parameter names of `EmailDeliveryHandler.send` after `cls`
(`email_handler.py`, `def send(cls, recipient_id, message_data)`). -/
def EmailDeliveryHandler_sendParams : List String := ["recipient_id", "message_data"]

/-- Parameter names of `InAppDeliveryHandler.send` after `cls`
(`in_app_handler.py`, `def send(cls, recipient_id, message_data)`). -/
def InAppDeliveryHandler_sendParams : List String := ["recipient_id", "message_data"]

/-- Parameter list of the `send` classmethod of each handler class. -/
def sendParams : HandlerClass → List String
  | HandlerClass.EmailDeliveryHandler => EmailDeliveryHandler_sendParams
  | HandlerClass.InAppDeliveryHandler => InAppDeliveryHandler_sendParams

/-- Python positional-argument binding for a classmethod: the call
succeeds only when the argument count matches the parameter count; a
mismatch raises `TypeError` (the reported counts include the implicit
`cls`). -/
def bindPositional (params : List String) (args : List CallArg) :
    Except String (List (String × CallArg)) :=
  if args.length = params.length then Except.ok (params.zip args)
  else Except.error
    ("send() takes " ++ toString (params.length + 1) ++
     " positional arguments but " ++ toString (args.length + 1) ++ " were given")

/-- The argument list of the worker dispatch call
`handler_class.send(job.recipient_id, message_payload, job.id)`
(`run_notification_worker.py` line 123); `message_payload` is
`job.message_data` unchanged. -/
def workerDispatchArgs (job : NotificationJob) : List CallArg :=
  [CallArg.val (PyValue.int job.recipient_id), CallArg.dict job.message_data,
   CallArg.val (PyValue.int job.id)]

/-- The semantics of `handler_class.send(recipient_id, message_data,
job_id)` as the worker actually invokes it: Python first binds the three
positional arguments against the handler signature, and only on success
runs the handler body (abstracted as `body`, since the bodies perform
SMTP / channel-layer input and output). -/
def actualSend (body : HandlerClass → List (String × CallArg) → Except String Unit)
    (hc : HandlerClass) (recipient_id : Int) (message_data : MessageData)
    (job_id : Int) : Except String Unit :=
  match bindPositional (sendParams hc)
      [CallArg.val (PyValue.int recipient_id), CallArg.dict message_data,
       CallArg.val (PyValue.int job_id)] with
  | Except.error e => Except.error e
  | Except.ok bound => body hc bound

/-- Truncation `str(e)[:255]` from `run_notification_worker.py` line 134. -/
def truncate255 (e : String) : String := e.take 255

/-- Process one claimed job, following `run_notification_worker.py` lines
100 to 152.  `send` abstracts the outcome of the whole call
`handler_class.send(job.recipient_id, message_payload, job.id)` (an
`Except.error e` is a raised exception with text `str(e)`).  The result is
the list of successively persisted row states, one entry per
`job.save(update_fields=...)` call; the skip path (line 101) persists
nothing. -/
def processOneJob (send : HandlerClass → Int → MessageData → Int → Except String Unit)
    (now : Int) (job : NotificationJob) : List NotificationJob :=
  if job.status ≠ STATUS_PENDING then
    []
  else
    -- lines 107-108: job.status = SENDING; job.save(update_fields=["status"])
    let mem1 := { job with status := STATUS_SENDING }
    let db1 := saveFields job mem1 [Col.status]
    match DELIVERY_HANDLERS_get job.channel with
    | Option.none =>
      -- lines 113-120: no handler for the channel
      let mem2 := { mem1 with
        status := STATUS_FAILED,
        failed_reason := some "No handler found for channel." }
      [db1, saveFields db1 mem2 [Col.status, Col.failed_reason]]
    | some hc =>
      match send hc mem1.recipient_id mem1.message_data mem1.id with
      | Except.ok _ =>
        -- lines 125-127: success
        let mem2 := { mem1 with status := STATUS_SENT, sent_at := some now }
        [db1, saveFields db1 mem2 [Col.status, Col.sent_at]]
      | Except.error e =>
        -- lines 132-152: handler raised
        let r := mem1.retries_count + 1
        let mem2 := { mem1 with
          retries_count := r,
          failed_reason := some (truncate255 e),
          status := if r ≥ mem1.max_retries then STATUS_FAILED else STATUS_PENDING,
          -- line 144 assigns the backoff only on the retry branch; the
          -- failed branch leaves scheduled_at as it was in memory
          scheduled_at := if r ≥ mem1.max_retries then mem1.scheduled_at else now + 5 * 60 }
        -- line 150: update_fields=["status", "retries_count", "failed_reason"]
        [db1, saveFields db1 mem2 [Col.status, Col.retries_count, Col.failed_reason]]

/-- The persisted row a claimed job ends the batch with: the last write of
`processOneJob`, or the unchanged row when nothing was written. -/
def finalRow (send : HandlerClass → Int → MessageData → Int → Except String Unit)
    (now : Int) (job : NotificationJob) : NotificationJob :=
  (processOneJob send now job).getLastD job

/-- The claiming eligibility predicate of the poll query
(`run_notification_worker.py` lines 85-88):
`status=STATUS_PENDING, scheduled_at__lte=timezone.now()`. -/
def eligible (now : Int) (j : NotificationJob) : Bool :=
  j.status == STATUS_PENDING && decide (j.scheduled_at ≤ now)

/-- The `order_by("scheduled_at")` ordering relation. -/
def schedLE (a b : NotificationJob) : Prop := a.scheduled_at ≤ b.scheduled_at

instance : DecidableRel schedLE := fun a b => Int.decLe a.scheduled_at b.scheduled_at

instance : IsTotal NotificationJob schedLE := ⟨fun a b => Int.le_total a.scheduled_at b.scheduled_at⟩

instance : IsTrans NotificationJob schedLE := ⟨fun _ _ _ => Int.le_trans⟩

/-- The claim query of `process_pending_jobs` under
`select_for_update(skip_locked=True)`: rows currently locked by another
transaction (their ids in `locked`) are skipped, the remaining rows with
`status=PENDING, scheduled_at<=now` are ordered by `scheduled_at` and the
first `batchSize` of them are locked and returned. -/
def claimBatchLocked (now : Int) (batchSize : Nat) (locked : List Int)
    (store : List NotificationJob) : List NotificationJob :=
  (List.insertionSort schedLE
    (store.filter (fun j => eligible now j && !(locked.contains j.id)))).take batchSize

/-- The claim query as a single worker running alone sees it (no rows
locked by anyone else). -/
def claimBatch (now : Int) (batchSize : Nat) (store : List NotificationJob) :
    List NotificationJob :=
  claimBatchLocked now batchSize [] store

/-- Default of `settings.NOTIFICATION_WORKER_BATCH_SIZE`
(`run_notification_worker.py` line 47). -/
def NOTIFICATION_WORKER_BATCH_SIZE : Nat := 10

/-- Persist a processed row back into the table: the row with the same id
is replaced. -/
def updateRow (store : List NotificationJob) (row : NotificationJob) : List NotificationJob :=
  store.map (fun j => if j.id = row.id then row else j)

/-- One full `process_pending_jobs` batch of a single worker: claim a
batch, then process each claimed row in order, persisting its writes.
Each claimed row is processed from the state it was fetched in (the
transaction holds the row locks, so no other writer intervenes). -/
def process_pending_jobs (send : HandlerClass → Int → MessageData → Int → Except String Unit)
    (now : Int) (batchSize : Nat) (store : List NotificationJob) : List NotificationJob :=
  (claimBatch now batchSize store).foldl
    (fun st job => updateRow st (finalRow send now job)) store

/-- Lookup `UserCommunicationPreference.objects.get(user_id=recipient_id)`
(`backends/database_queue.py` line 29); `Option.none` is the
`DoesNotExist` branch. -/
def prefsGet (prefs : List UserCommunicationPreference) (uid : Int) :
    Option UserCommunicationPreference :=
  prefs.find? (fun p => p.user_id == uid)

/-- The row `NotificationJob.objects.create(...)` inserts
(`backends/database_queue.py` lines 46-52): explicit columns plus the
model defaults of `models.py` (`retries_count=0`, `max_retries=3`,
`is_read=False`, `scheduled_at`/`created_at` auto_now_add). -/
def mkJob (nextId : Int) (now : Int) (recipient_id : Int) (channel : String)
    (message_data : MessageData) (notification_type : String) : NotificationJob :=
  { id := nextId
    recipient_id := recipient_id
    channel := channel
    notification_type := notification_type
    message_data := message_data
    status := STATUS_PENDING
    retries_count := 0
    max_retries := 3
    failed_reason := Option.none
    scheduled_at := now
    sent_at := Option.none
    created_at := now
    is_read := false }

/-- Method `DatabaseQueueBackend.enqueue` (`backends/database_queue.py` lines
17-61): consult the preference record and either skip (returning `None`,
writing nothing) or insert exactly one PENDING job and return its id. -/
def enqueue (prefs : List UserCommunicationPreference) (now : Int) (nextId : Int)
    (store : List NotificationJob) (recipient_id : Int) (channel : String)
    (message_data : MessageData) (notification_type : String) :
    Option Int × List NotificationJob :=
  let veto :=
    match prefsGet prefs recipient_id with
    | some p =>
      -- lines 30-38: the two opt-out early returns
      (channel == CHANNEL_EMAIL && !p.prefers_email) ||
      (channel == CHANNEL_IN_APP && !p.prefers_in_app)
    | Option.none => false
  if veto then (Option.none, store)
  else (some nextId,
        store ++ [mkJob nextId now recipient_id channel message_data notification_type])

/-- The `created_at` ordering relation of
`order_by("created_at")` in `send_missed_notifications`. -/
def createdLE (a b : NotificationJob) : Prop := a.created_at ≤ b.created_at

instance : DecidableRel createdLE := fun a b => Int.decLe a.created_at b.created_at

instance : IsTotal NotificationJob createdLE := ⟨fun a b => Int.le_total a.created_at b.created_at⟩

instance : IsTrans NotificationJob createdLE := ⟨fun _ _ _ => Int.le_trans⟩

/-- Method `NotificationConsumer._mark_notification_as_read` (`consumers.py`
lines 146-159): fetch the job by id; if it is not yet read, set
`is_read=True` and save the row; a missing id is logged and changes
nothing. -/
def markNotificationRead (store : List NotificationJob) (job_id : Int) :
    List NotificationJob :=
  match store.find? (fun j => j.id == job_id) with
  | Option.none => store
  | some j => if j.is_read then store else updateRow store { j with is_read := true }

/-- The filter of the missed-notification query (`consumers.py` lines
114-123): IN_APP jobs of this recipient with status `sent` and
`is_read=False`. -/
def missedFilter (uid : Int) (j : NotificationJob) : Bool :=
  j.recipient_id == uid && j.channel == CHANNEL_IN_APP &&
  j.status == STATUS_SENT && !j.is_read

/-- The missed-notification query result: the matching rows ordered by
`created_at` (oldest first). -/
def missedNotifications (uid : Int) (store : List NotificationJob) :
    List NotificationJob :=
  List.insertionSort createdLE (store.filter (missedFilter uid))

/-- A server-to-client frame (`consumers.py`): the JSON object
`{"type": ..., "data": ..., "job_id": ...}`; `job_id = Option.none` means
the key is absent from the frame. -/
structure Frame where
  type : String
  data : MessageData
  job_id : Option Int
deriving Repr, DecidableEq

/-- The frame sent for one missed job (`consumers.py` lines 131-139). -/
def missedFrame (j : NotificationJob) : Frame :=
  { type := "notification_missed", data := j.message_data, job_id := some j.id }

/-- Method `NotificationConsumer.send_missed_notifications` (`consumers.py`
lines 109-143): fetch the missed jobs once, then for each one, oldest
first, transmit its frame and immediately mark it read.  The frames are
built from the fetched snapshot (the marking never changes
`message_data` or `id`), so the transmitted frames and the sequence of
read-marks are computed separately here. -/
def send_missed_notifications (uid : Int) (store : List NotificationJob) :
    List Frame × List NotificationJob :=
  let missed := missedNotifications uid store
  (missed.map missedFrame,
   missed.foldl (fun st j => markNotificationRead st j.id) store)

/-- The result of a WebSocket connect attempt: whether the connection was
accepted, the frames transmitted during connect, and the job table
afterwards. -/
structure ConnectResult where
  accepted : Bool
  frames : List Frame
  store : List NotificationJob
deriving Repr, DecidableEq

/-- Method `NotificationConsumer.connect` (`consumers.py` lines 21-57): an
unauthenticated user is rejected with no further effect; an authenticated
user is registered in the recipient group, accepted, and immediately
replayed the missed notifications. -/
def consumer_connect (authenticated : Bool) (uid : Int)
    (store : List NotificationJob) : ConnectResult :=
  if authenticated then
    let r := send_missed_notifications uid store
    { accepted := true, frames := r.1, store := r.2 }
  else
    { accepted := false, frames := [], store := store }

/-- Method `NotificationConsumer.send_notification` (`consumers.py` lines
83-107): on a group-send event, read `job_id` from inside the message
payload, transmit the frame `{"type": "notification", "data": payload}`
(which itself carries no top-level job_id key), and mark the job read only
when the payload value under "job_id" is a truthy integer (a truthy
non-integer primary-key lookup raises and is caught, changing nothing). -/
def send_notification (event_message : MessageData) (store : List NotificationJob) :
    Frame × List NotificationJob :=
  let job_id := dictGet event_message "job_id"
  let frame : Frame := { type := "notification", data := event_message, job_id := Option.none }
  if job_id.truthy then
    match job_id with
    | PyValue.int n => (frame, markNotificationRead store n)
    | _ => (frame, store)
  else (frame, store)

/-- The allowed status moves of the worker state machine:
PENDING to SENDING at claim time, and SENDING to one of SENT, PENDING
(retry) or FAILED at outcome time. -/
def statusStepOK (a b : String) : Bool :=
  (a == STATUS_PENDING && b == STATUS_SENDING) ||
  (a == STATUS_SENDING &&
    (b == STATUS_SENT || b == STATUS_PENDING || b == STATUS_FAILED))

/-! ### Helper lemmas -/

theorem saveFields_id (db mem : NotificationJob) (fields : List Col) :
    (saveFields db mem fields).id = db.id := by
  induction fields generalizing db with
  | nil => rfl
  | cons c rest ih =>
    cases c <;> simpa [saveFields, applyCol] using ih _

theorem processOneJob_not_pending (send : HandlerClass → Int → MessageData → Int → Except String Unit)
    (now : Int) (job : NotificationJob) (h : job.status ≠ STATUS_PENDING) :
    processOneJob send now job = [] := by
  simp [processOneJob, h]

theorem processOneJob_no_handler (send : HandlerClass → Int → MessageData → Int → Except String Unit)
    (now : Int) (job : NotificationJob) (hp : job.status = STATUS_PENDING)
    (hh : DELIVERY_HANDLERS_get job.channel = Option.none) :
    processOneJob send now job =
      [{ job with status := STATUS_SENDING },
       { job with status := STATUS_FAILED,
                  failed_reason := some "No handler found for channel." }] := by
  simp [processOneJob, hp, hh, saveFields, applyCol]

theorem processOneJob_ok (send : HandlerClass → Int → MessageData → Int → Except String Unit)
    (now : Int) (job : NotificationJob) (hc : HandlerClass)
    (hp : job.status = STATUS_PENDING)
    (hh : DELIVERY_HANDLERS_get job.channel = some hc)
    (hs : send hc job.recipient_id job.message_data job.id = Except.ok ()) :
    processOneJob send now job =
      [{ job with status := STATUS_SENDING },
       { job with status := STATUS_SENT, sent_at := some now }] := by
  simp [processOneJob, hp, hh, hs, saveFields, applyCol]

theorem processOneJob_err (send : HandlerClass → Int → MessageData → Int → Except String Unit)
    (now : Int) (job : NotificationJob) (hc : HandlerClass) (e : String)
    (hp : job.status = STATUS_PENDING)
    (hh : DELIVERY_HANDLERS_get job.channel = some hc)
    (hs : send hc job.recipient_id job.message_data job.id = Except.error e) :
    processOneJob send now job =
      [{ job with status := STATUS_SENDING },
       { job with
           status := if job.retries_count + 1 ≥ job.max_retries then STATUS_FAILED
                     else STATUS_PENDING,
           retries_count := job.retries_count + 1,
           failed_reason := some (truncate255 e) }] := by
  simp [processOneJob, hp, hh, hs, saveFields, applyCol]

theorem processOneJob_id (send : HandlerClass → Int → MessageData → Int → Except String Unit)
    (now : Int) (job : NotificationJob) :
    ∀ r ∈ processOneJob send now job, r.id = job.id := by
  intro r hr
  by_cases hp : job.status = STATUS_PENDING
  · cases hget : DELIVERY_HANDLERS_get job.channel with
    | none =>
      rw [processOneJob_no_handler send now job hp hget] at hr
      simp only [List.mem_cons, List.not_mem_nil, or_false] at hr
      rcases hr with h | h <;> subst h <;> rfl
    | some hc =>
      cases hsend : send hc job.recipient_id job.message_data job.id with
      | ok u =>
        cases u
        rw [processOneJob_ok send now job hc hp hget hsend] at hr
        simp only [List.mem_cons, List.not_mem_nil, or_false] at hr
        rcases hr with h | h <;> subst h <;> rfl
      | error e =>
        rw [processOneJob_err send now job hc e hp hget hsend] at hr
        simp only [List.mem_cons, List.not_mem_nil, or_false] at hr
        rcases hr with h | h <;> subst h <;> rfl
  · rw [processOneJob_not_pending send now job hp] at hr
    exact absurd hr (List.not_mem_nil r)

theorem finalRow_id (send : HandlerClass → Int → MessageData → Int → Except String Unit)
    (now : Int) (job : NotificationJob) :
    (finalRow send now job).id = job.id := by
  unfold finalRow
  cases h : processOneJob send now job with
  | nil => rfl
  | cons a t =>
    have hm : (a :: t).getLastD job ∈ job :: a :: t := List.getLastD_mem_cons _ _
    rcases List.mem_cons.mp hm with hm | hm
    · rw [hm]
    · exact processOneJob_id send now job _ (h ▸ hm)

theorem updateRow_mem_other {store : List NotificationJob} {x row : NotificationJob}
    (hx : x ∈ store) (hne : x.id ≠ row.id) : x ∈ updateRow store row := by
  unfold updateRow
  exact List.mem_map.mpr ⟨x, hx, by simp [hne]⟩

theorem updateRow_map_id (store : List NotificationJob) (row : NotificationJob) :
    (updateRow store row).map (fun j => j.id) = store.map (fun j => j.id) := by
  unfold updateRow
  rw [List.map_map]
  refine List.map_congr_left ?_
  intro a _
  by_cases h : a.id = row.id
  · simp [Function.comp, h]
  · simp [Function.comp, h]

theorem markNotificationRead_mem_other {store : List NotificationJob}
    {x : NotificationJob} {jid : Int}
    (hx : x ∈ store) (hne : x.id ≠ jid) : x ∈ markNotificationRead store jid := by
  unfold markNotificationRead
  cases hfind : store.find? (fun j => j.id == jid) with
  | none => exact hx
  | some j =>
    have hjid : j.id = jid := by
      have := List.find?_some hfind
      simpa using this
    by_cases hr : j.is_read
    · simpa [hr] using hx
    · simp only [hr, if_false, Bool.false_eq_true]
      exact updateRow_mem_other hx (by simpa [hjid] using hne)

theorem markNotificationRead_map_id (store : List NotificationJob) (jid : Int) :
    (markNotificationRead store jid).map (fun j => j.id) = store.map (fun j => j.id) := by
  unfold markNotificationRead
  cases hfind : store.find? (fun j => j.id == jid) with
  | none => rfl
  | some j =>
    by_cases hr : j.is_read
    · simp [hr]
    · simp only [hr, if_false, Bool.false_eq_true]
      exact updateRow_map_id store _

/-- With unique row ids, the lookup of a member row finds that very row. -/
theorem find?_of_nodup {store : List NotificationJob} {x : NotificationJob}
    (hnodup : (store.map (fun j => j.id)).Nodup) (hx : x ∈ store) :
    store.find? (fun j => j.id == x.id) = some x := by
  have hsome : (store.find? (fun j => j.id == x.id)).isSome :=
    List.find?_isSome.mpr ⟨x, hx, by simp⟩
  cases hfind : store.find? (fun j => j.id == x.id) with
  | none => rw [hfind] at hsome; exact absurd hsome (by simp)
  | some y =>
    have hy : y ∈ store := List.mem_of_find?_eq_some hfind
    have hyid : y.id = x.id := by
      have := List.find?_some hfind
      simpa using this
    have := List.inj_on_of_nodup_map hnodup hy hx hyid
    rw [this]

theorem markNotificationRead_marks {store : List NotificationJob} {x : NotificationJob}
    (hnodup : (store.map (fun j => j.id)).Nodup)
    (hx : x ∈ store) (hr : x.is_read = false) :
    { x with is_read := true } ∈ markNotificationRead store x.id := by
  unfold markNotificationRead
  rw [find?_of_nodup hnodup hx]
  simp only [hr, Bool.false_eq_true, if_false]
  exact List.mem_map.mpr ⟨x, hx, by simp⟩

/-- Marking a row that is already read changes nothing
(`consumers.py` line 150: `if not job.is_read`). -/
theorem markNotificationRead_noop {store : List NotificationJob} {j : NotificationJob}
    {jid : Int}
    (hfind : store.find? (fun x => x.id == jid) = some j) (hr : j.is_read = true) :
    markNotificationRead store jid = store := by
  unfold markNotificationRead
  rw [hfind]
  simp [hr]

theorem mark_foldl_preserve {ms store : List NotificationJob} {x : NotificationJob}
    (hx : x ∈ store) (hne : ∀ j ∈ ms, x.id ≠ j.id) :
    x ∈ ms.foldl (fun st j => markNotificationRead st j.id) store := by
  induction ms generalizing store with
  | nil => simpa using hx
  | cons j rest ih =>
    simp only [List.foldl_cons]
    exact ih (markNotificationRead_mem_other hx (hne j (List.mem_cons_self j rest)))
      (fun k hk => hne k (List.mem_cons_of_mem j hk))

theorem mark_foldl_map_id (ms store : List NotificationJob) :
    (ms.foldl (fun st j => markNotificationRead st j.id) store).map (fun j => j.id) =
      store.map (fun j => j.id) := by
  induction ms generalizing store with
  | nil => rfl
  | cons j rest ih =>
    simp only [List.foldl_cons]
    rw [ih, markNotificationRead_map_id]

theorem claimBatch_eq (now : Int) (batchSize : Nat) (store : List NotificationJob) :
    claimBatch now batchSize store =
      (List.insertionSort schedLE (store.filter (eligible now))).take batchSize := by
  simp [claimBatch, claimBatchLocked]

theorem mem_claimBatch_eligible {now : Int} {batchSize : Nat}
    {store : List NotificationJob} {j : NotificationJob}
    (h : j ∈ claimBatch now batchSize store) : eligible now j = true := by
  rw [claimBatch_eq] at h
  have h1 : j ∈ List.insertionSort schedLE (store.filter (eligible now)) :=
    List.mem_of_mem_take h
  have h2 : j ∈ store.filter (eligible now) :=
    (List.perm_insertionSort schedLE _).mem_iff.mp h1
  exact (List.mem_filter.mp h2).2

theorem mem_claimBatch_mem_store {now : Int} {batchSize : Nat}
    {store : List NotificationJob} {j : NotificationJob}
    (h : j ∈ claimBatch now batchSize store) : j ∈ store := by
  rw [claimBatch_eq] at h
  have h1 : j ∈ List.insertionSort schedLE (store.filter (eligible now)) :=
    List.mem_of_mem_take h
  have h2 : j ∈ store.filter (eligible now) :=
    (List.perm_insertionSort schedLE _).mem_iff.mp h1
  exact (List.mem_filter.mp h2).1

theorem pass_foldl_preserve (send : HandlerClass → Int → MessageData → Int → Except String Unit)
    (now : Int) {claimed store : List NotificationJob} {x : NotificationJob}
    (hx : x ∈ store) (hne : ∀ c ∈ claimed, x.id ≠ c.id) :
    x ∈ claimed.foldl (fun st job => updateRow st (finalRow send now job)) store := by
  induction claimed generalizing store with
  | nil => simpa using hx
  | cons c rest ih =>
    simp only [List.foldl_cons]
    refine ih (updateRow_mem_other hx ?_) (fun k hk => hne k (List.mem_cons_of_mem c hk))
    rw [finalRow_id]
    exact hne c (List.mem_cons_self c rest)

/-- A batch over a store with no eligible row claims nothing and changes
nothing. -/
theorem pass_no_eligible (send : HandlerClass → Int → MessageData → Int → Except String Unit)
    (now : Int) (batchSize : Nat) (store : List NotificationJob)
    (h : ∀ j ∈ store, eligible now j = false) :
    process_pending_jobs send now batchSize store = store := by
  unfold process_pending_jobs
  have hfilter : store.filter (eligible now) = [] := by
    apply List.filter_eq_nil_iff.mpr
    intro a ha
    simp [h a ha]
  rw [claimBatch_eq, hfilter]
  simp [List.insertionSort]

theorem claimBatch_singleton (now : Int) (batchSize : Nat) (j : NotificationJob)
    (hb : 1 ≤ batchSize) (he : eligible now j = true) :
    claimBatch now batchSize [j] = [j] := by
  rw [claimBatch_eq]
  have hfilter : List.filter (eligible now) [j] = [j] := by simp [he]
  rw [hfilter]
  have hsort : List.insertionSort schedLE [j] = [j] := rfl
  rw [hsort]
  exact List.take_of_length_le (by simpa using hb)

/-- A single-worker batch over a one-row table with that row eligible
processes exactly that row. -/
theorem pass_singleton (send : HandlerClass → Int → MessageData → Int → Except String Unit)
    (now : Int) (batchSize : Nat) (j : NotificationJob)
    (hb : 1 ≤ batchSize) (he : eligible now j = true) :
    process_pending_jobs send now batchSize [j] = [finalRow send now j] := by
  unfold process_pending_jobs
  rw [claimBatch_singleton now batchSize j hb he]
  simp [updateRow, finalRow_id]

theorem finalRow_err (send : HandlerClass → Int → MessageData → Int → Except String Unit)
    (now : Int) (job : NotificationJob) (hcl : HandlerClass) (e : String)
    (hp : job.status = STATUS_PENDING)
    (hh : DELIVERY_HANDLERS_get job.channel = some hcl)
    (hs : send hcl job.recipient_id job.message_data job.id = Except.error e) :
    finalRow send now job =
      { job with
          status := if job.retries_count + 1 ≥ job.max_retries then STATUS_FAILED
                    else STATUS_PENDING,
          retries_count := job.retries_count + 1,
          failed_reason := some (truncate255 e) } := by
  unfold finalRow
  rw [processOneJob_err send now job hcl e hp hh hs]
  rfl

theorem finalRow_ok (send : HandlerClass → Int → MessageData → Int → Except String Unit)
    (now : Int) (job : NotificationJob) (hcl : HandlerClass)
    (hp : job.status = STATUS_PENDING)
    (hh : DELIVERY_HANDLERS_get job.channel = some hcl)
    (hs : send hcl job.recipient_id job.message_data job.id = Except.ok ()) :
    finalRow send now job = { job with status := STATUS_SENT, sent_at := some now } := by
  unfold finalRow
  rw [processOneJob_ok send now job hcl hp hh hs]
  rfl

theorem finalRow_no_handler (send : HandlerClass → Int → MessageData → Int → Except String Unit)
    (now : Int) (job : NotificationJob)
    (hp : job.status = STATUS_PENDING)
    (hh : DELIVERY_HANDLERS_get job.channel = Option.none) :
    finalRow send now job =
      { job with status := STATUS_FAILED,
                 failed_reason := some "No handler found for channel." } := by
  unfold finalRow
  rw [processOneJob_no_handler send now job hp hh]
  rfl

theorem processOneJob_head (send : HandlerClass → Int → MessageData → Int → Except String Unit)
    (now : Int) (job : NotificationJob) (hp : job.status = STATUS_PENDING) :
    (processOneJob send now job).head? = some { job with status := STATUS_SENDING } := by
  cases hget : DELIVERY_HANDLERS_get job.channel with
  | none => rw [processOneJob_no_handler send now job hp hget]; rfl
  | some hc =>
    cases hsend : send hc job.recipient_id job.message_data job.id with
    | ok u => cases u; rw [processOneJob_ok send now job hc hp hget hsend]; rfl
    | error e => rw [processOneJob_err send now job hc e hp hget hsend]; rfl

theorem mark_foldl_marks {ms store : List NotificationJob}
    (hnodup : (store.map (fun j => j.id)).Nodup)
    (hsub : ∀ x ∈ ms, x ∈ store ∧ x.is_read = false)
    (hmsnodup : (ms.map (fun j => j.id)).Nodup) :
    ∀ x ∈ ms, { x with is_read := true } ∈
      ms.foldl (fun st j => markNotificationRead st j.id) store := by
  induction ms generalizing store with
  | nil => intro x hx; exact absurd hx (List.not_mem_nil x)
  | cons j0 rest ih =>
    rw [List.map_cons] at hmsnodup
    obtain ⟨hnotin, hrestnodup⟩ := List.nodup_cons.mp hmsnodup
    obtain ⟨hj0s, hj0r⟩ := hsub j0 (List.mem_cons_self j0 rest)
    have hmark : { j0 with is_read := true } ∈ markNotificationRead store j0.id :=
      markNotificationRead_marks hnodup hj0s hj0r
    have hnodup' : ((markNotificationRead store j0.id).map (fun j => j.id)).Nodup := by
      rw [markNotificationRead_map_id]; exact hnodup
    have hj0rest : ∀ k ∈ rest, j0.id ≠ k.id := by
      intro k hk heq
      exact hnotin (heq ▸ List.mem_map.mpr ⟨k, hk, rfl⟩)
    intro x hx
    rcases List.mem_cons.mp hx with rfl | hxrest
    · simp only [List.foldl_cons]
      exact mark_foldl_preserve hmark (fun k hk => by simpa using hj0rest k hk)
    · simp only [List.foldl_cons]
      refine ih hnodup' ?_ hrestnodup x hxrest
      intro y hy
      obtain ⟨hys, hyr⟩ := hsub y (List.mem_cons_of_mem j0 hy)
      exact ⟨markNotificationRead_mem_other hys (fun h => hj0rest y hy h.symm), hyr⟩

/-! ### Claim theorems -/

set_option maxRecDepth 8000 in
/-- C1: code bug.  For a claimed pending email job whose handler raises
while retries_count + 1 is below max_retries, the persisted update does
set status PENDING, retries_count + 1 and the truncated error text; but
the save call on line 150 lists only status, retries_count and
failed_reason, so the five-minute backoff assigned to `scheduled_at` in
memory on line 144 is never persisted: the stored `scheduled_at` stays at
its old value and the job is immediately eligible for claiming again,
contradicting the claimed backoff. -/
theorem c1_retry_backoff_not_persisted :
    let job0 : NotificationJob :=
      { id := 1, recipient_id := 7, channel := "email",
        notification_type := "welcome_email",
        message_data := [("subject", PyValue.str "Hi")],
        status := "pending", retries_count := 0, max_retries := 3,
        failed_reason := Option.none, scheduled_at := 100,
        sent_at := Option.none, created_at := 100, is_read := false }
    let raisingSend : HandlerClass → Int → MessageData → Int → Except String Unit :=
      fun _ _ _ _ => Except.error "ConnectionError: connection refused"
    let after := finalRow raisingSend 10000 job0
    after.status = STATUS_PENDING ∧
    after.retries_count = 1 ∧
    after.failed_reason = some "ConnectionError: connection refused" ∧
    after.scheduled_at = 100 ∧
    after.scheduled_at ≠ 10000 + 5 * 60 ∧
    eligible 10000 after = true := by
  decide

set_option maxRecDepth 8000 in
/-- C2: code bug.  Both handler classes define `send(cls, recipient_id,
message_data)` with two parameters, while the worker dispatches
`handler_class.send(job.recipient_id, message_payload, job.id)` with
three arguments, so every dispatch raises TypeError before any handler
body runs; the worker catches it as a retryable failure, so a claimed
job never reaches SENT even with a handler body that would succeed. -/
theorem c2_send_arity_mismatch :
    (∀ (body : HandlerClass → List (String × CallArg) → Except String Unit)
       (hc : HandlerClass) (rid : Int) (md : MessageData) (jid : Int),
        actualSend body hc rid md jid =
          Except.error "send() takes 3 positional arguments but 4 were given")
    ∧ (let job0 : NotificationJob :=
        { id := 1, recipient_id := 7, channel := "email",
          notification_type := "welcome_email",
          message_data := [("subject", PyValue.str "Hi")],
          status := "pending", retries_count := 0, max_retries := 3,
          failed_reason := Option.none, scheduled_at := 100,
          sent_at := Option.none, created_at := 100, is_read := false }
       processOneJob (actualSend (fun _ _ => Except.ok ())) 500 job0 =
         [{ job0 with status := STATUS_SENDING },
          { job0 with
              status := STATUS_PENDING,
              retries_count := 1,
              failed_reason :=
                some "send() takes 3 positional arguments but 4 were given" }]) := by
  constructor
  · intro body hc rid md jid
    cases hc <;>
      simp [actualSend, bindPositional, sendParams, EmailDeliveryHandler_sendParams,
        InAppDeliveryHandler_sendParams] <;>
      rfl
  · decide

set_option maxRecDepth 8000 in
/-- C7: counterexample to the claim as stated.  For a claimed pending job
with the unmapped channel "sms", the worker does mark it FAILED
immediately, but the persisted failed_reason is the literal
"No handler found for channel." from line 118, not the claimed
"no handler for channel". -/
theorem c7_counterexample_failed_reason_text :
    let job0 : NotificationJob :=
      { id := 2, recipient_id := 7, channel := "sms", notification_type := "t",
        message_data := [], status := "pending", retries_count := 0,
        max_retries := 3, failed_reason := Option.none, scheduled_at := 100,
        sent_at := Option.none, created_at := 100, is_read := false }
    let after := finalRow (fun _ _ _ _ => Except.ok ()) 10 job0
    after.status = STATUS_FAILED ∧
    after.failed_reason ≠ some "no handler for channel" ∧
    after.failed_reason = some "No handler found for channel." := by
  decide

/-- C7 (amended): for every claimed pending job whose channel has no
mapped delivery handler, the worker persists SENDING and then FAILED with
failed_reason "No handler found for channel.", never invokes any handler
(the outcome is independent of the handler semantics), leaves
retries_count unchanged, and no later worker pass touches the FAILED
row. -/
theorem c7_unknown_channel_terminal
    (send send2 : HandlerClass → Int → MessageData → Int → Except String Unit)
    (now now2 : Int) (batchSize : Nat) (job : NotificationJob)
    (hp : job.status = STATUS_PENDING)
    (hh : DELIVERY_HANDLERS_get job.channel = Option.none) :
    processOneJob send now job =
      [{ job with status := STATUS_SENDING },
       { job with status := STATUS_FAILED,
                  failed_reason := some "No handler found for channel." }]
    ∧ processOneJob send now job = processOneJob send2 now job
    ∧ (finalRow send now job).retries_count = job.retries_count
    ∧ process_pending_jobs send2 now2 batchSize [finalRow send now job] =
        [finalRow send now job] := by
  have h1 := processOneJob_no_handler send now job hp hh
  have h2 := processOneJob_no_handler send2 now job hp hh
  refine ⟨h1, h1.trans h2.symm, ?_, ?_⟩
  · rw [finalRow_no_handler send now job hp hh]
  · apply pass_no_eligible
    intro x hx
    rw [finalRow_no_handler send now job hp hh] at hx
    rw [List.mem_singleton.mp hx]
    simp [eligible, STATUS_FAILED, STATUS_PENDING]

/-- Witness for the amended C7 at a concrete "sms" job. -/
theorem c7_unknown_channel_terminal_witness :
    let job0 : NotificationJob :=
      { id := 2, recipient_id := 7, channel := "sms", notification_type := "t",
        message_data := [], status := "pending", retries_count := 0,
        max_retries := 3, failed_reason := Option.none, scheduled_at := 100,
        sent_at := Option.none, created_at := 100, is_read := false }
    let send0 : HandlerClass → Int → MessageData → Int → Except String Unit :=
      fun _ _ _ _ => Except.ok ()
    processOneJob send0 10 job0 =
      [{ job0 with status := STATUS_SENDING },
       { job0 with status := STATUS_FAILED,
                   failed_reason := some "No handler found for channel." }]
    ∧ processOneJob send0 10 job0 = processOneJob send0 10 job0
    ∧ (finalRow send0 10 job0).retries_count = job0.retries_count
    ∧ process_pending_jobs send0 999 10 [finalRow send0 10 job0] =
        [finalRow send0 10 job0] := by
  exact c7_unknown_channel_terminal _ _ 10 999 10 _ rfl rfl

set_option maxRecDepth 8000 in
/-- C5: counterexample to the claim as stated.  A job whose status is
SENT is modified again by a later operation of the core: the connect
replay of the realtime layer sets its `is_read` flag, so the stored row
changes while the status is SENT. -/
theorem c5_counterexample_sent_job_modified :
    let j : NotificationJob :=
      { id := 1, recipient_id := 7, channel := "in_app",
        notification_type := "t",
        message_data := [("title", PyValue.str "Hello")], status := "sent",
        retries_count := 0, max_retries := 3, failed_reason := Option.none,
        scheduled_at := 100, sent_at := some 200, created_at := 100,
        is_read := false }
    j.status = STATUS_SENT ∧
    (consumer_connect true 7 [j]).store ≠ [j] ∧
    (consumer_connect true 7 [j]).store = [{ j with is_read := true }] := by
  decide

/-- C5 (amended): the persisted status of a job only moves forward along
PENDING to SENDING to one of SENT, PENDING, FAILED; the worker writes
nothing for a claimed row that is no longer PENDING, and whenever it
writes anything the first persisted write is the SENDING one; the
read-ack path never changes any status (it may still flip `is_read` of a
SENT row from false to true, which is the one amendment to the claim). -/
theorem c5_status_forward_only
    (send : HandlerClass → Int → MessageData → Int → Except String Unit)
    (now : Int) (row : NotificationJob)
    (store : List NotificationJob) (jid : Int)
    (hnodup : (store.map (fun j => j.id)).Nodup) :
    List.Chain' (fun a b => statusStepOK a.status b.status = true)
      (row :: processOneJob send now row)
    ∧ ((row.status = STATUS_SENT ∨ row.status = STATUS_FAILED) →
        processOneJob send now row = [])
    ∧ (processOneJob send now row ≠ [] →
        (processOneJob send now row).head?.map (fun x => x.status) =
          some STATUS_SENDING)
    ∧ (markNotificationRead store jid).map (fun x => (x.id, x.status)) =
        store.map (fun x => (x.id, x.status)) := by
  refine ⟨?_, ?_, ?_, ?_⟩
  · by_cases hp : row.status = STATUS_PENDING
    · cases hget : DELIVERY_HANDLERS_get row.channel with
      | none =>
        rw [processOneJob_no_handler send now row hp hget]
        refine List.chain'_cons.mpr ⟨?_, List.chain'_cons.mpr ⟨?_, List.chain'_singleton _⟩⟩
        · rw [hp]
          exact (by decide : statusStepOK STATUS_PENDING STATUS_SENDING = true)
        · exact (by decide : statusStepOK STATUS_SENDING STATUS_FAILED = true)
      | some hc =>
        cases hsend : send hc row.recipient_id row.message_data row.id with
        | ok u =>
          cases u
          rw [processOneJob_ok send now row hc hp hget hsend]
          refine List.chain'_cons.mpr ⟨?_, List.chain'_cons.mpr ⟨?_, List.chain'_singleton _⟩⟩
          · rw [hp]
            exact (by decide : statusStepOK STATUS_PENDING STATUS_SENDING = true)
          · exact (by decide : statusStepOK STATUS_SENDING STATUS_SENT = true)
        | error e =>
          rw [processOneJob_err send now row hc e hp hget hsend]
          refine List.chain'_cons.mpr ⟨?_, List.chain'_cons.mpr ⟨?_, List.chain'_singleton _⟩⟩
          · rw [hp]
            exact (by decide : statusStepOK STATUS_PENDING STATUS_SENDING = true)
          · show statusStepOK STATUS_SENDING
              (if row.retries_count + 1 ≥ row.max_retries then STATUS_FAILED
               else STATUS_PENDING) = true
            by_cases hmax : row.retries_count + 1 ≥ row.max_retries
            · rw [if_pos hmax]; decide
            · rw [if_neg hmax]; decide
    · rw [processOneJob_not_pending send now row hp]
      exact List.chain'_singleton _
  · intro h
    apply processOneJob_not_pending
    rcases h with h | h <;> rw [h] <;> decide
  · intro hne
    by_cases hp : row.status = STATUS_PENDING
    · rw [processOneJob_head send now row hp]
      rfl
    · exact absurd (processOneJob_not_pending send now row hp) hne
  · unfold markNotificationRead
    cases hfind : store.find? (fun x => x.id == jid) with
    | none => rfl
    | some j =>
      by_cases hr : j.is_read
      · simp [hr]
      · simp only [hr, Bool.false_eq_true, if_false]
        unfold updateRow
        rw [List.map_map]
        apply List.map_congr_left
        intro a ha
        by_cases hid : a.id = j.id
        · have hj : j ∈ store := List.mem_of_find?_eq_some hfind
          have hae : a = j := List.inj_on_of_nodup_map hnodup ha hj hid
          subst hae
          simp [Function.comp]
        · simp [Function.comp, hid]

/-- Witness for the amended C5: a SENT row is never claimed (no persisted
write), and the read-ack on a one-row table keeps the (id, status)
pairs. -/
theorem c5_status_forward_only_witness :
    let j : NotificationJob :=
      { id := 1, recipient_id := 7, channel := "in_app",
        notification_type := "t", message_data := [], status := "sent",
        retries_count := 0, max_retries := 3, failed_reason := Option.none,
        scheduled_at := 100, sent_at := some 200, created_at := 100,
        is_read := false }
    processOneJob (fun _ _ _ _ => Except.ok ()) 0 j = []
    ∧ (markNotificationRead [j] 1).map (fun x => (x.id, x.status)) =
        [j].map (fun x => (x.id, x.status)) := by
  refine ⟨?_, ?_⟩
  · exact (c5_status_forward_only (fun _ _ _ _ => Except.ok ()) 0 _ [] 0
      (by decide)).2.1 (Or.inl rfl)
  · exact (c5_status_forward_only (fun _ _ _ _ => Except.ok ()) 0
      { id := 1, recipient_id := 7, channel := "in_app",
        notification_type := "t", message_data := [], status := "sent",
        retries_count := 0, max_retries := 3, failed_reason := Option.none,
        scheduled_at := 100, sent_at := some 200, created_at := 100,
        is_read := false } _ 1 (by decide)).2.2.2

/-- C4: for every enqueue call, a found preference record whose flag for
the requested channel is off makes enqueue return None and write nothing;
in every other case (flag on, unmatched channel, or no preference record
at all) exactly one PENDING job row is appended with scheduled_at = now,
retries_count 0 and max_retries 3, and its id is returned. -/
theorem c4_enqueue_preference_gate (prefs : List UserCommunicationPreference)
    (now nextId : Int) (store : List NotificationJob) (rid : Int) (ch : String)
    (md : MessageData) (nt : String) :
    (∀ p, prefsGet prefs rid = some p →
      (((ch = CHANNEL_EMAIL ∧ p.prefers_email = false) ∨
        (ch = CHANNEL_IN_APP ∧ p.prefers_in_app = false)) →
         enqueue prefs now nextId store rid ch md nt = (Option.none, store)) ∧
      (¬((ch = CHANNEL_EMAIL ∧ p.prefers_email = false) ∨
         (ch = CHANNEL_IN_APP ∧ p.prefers_in_app = false)) →
         enqueue prefs now nextId store rid ch md nt =
           (some nextId, store ++ [mkJob nextId now rid ch md nt])))
    ∧ (prefsGet prefs rid = Option.none →
        enqueue prefs now nextId store rid ch md nt =
          (some nextId, store ++ [mkJob nextId now rid ch md nt]))
    ∧ (mkJob nextId now rid ch md nt).status = STATUS_PENDING
    ∧ (mkJob nextId now rid ch md nt).scheduled_at = now
    ∧ (mkJob nextId now rid ch md nt).retries_count = 0
    ∧ (mkJob nextId now rid ch md nt).max_retries = 3
    ∧ (mkJob nextId now rid ch md nt).id = nextId
    ∧ (store ++ [mkJob nextId now rid ch md nt]).length = store.length + 1 := by
  refine ⟨?_, ?_, rfl, rfl, rfl, rfl, rfl, by simp⟩
  · intro p hp
    constructor
    · intro hveto
      have hb : ((ch == CHANNEL_EMAIL && !p.prefers_email) ||
                 (ch == CHANNEL_IN_APP && !p.prefers_in_app)) = true := by
        rcases hveto with ⟨h1, h2⟩ | ⟨h1, h2⟩ <;> simp [h1, h2]
      simp [enqueue, hp, hb]
    · intro hveto
      have hb : ((ch == CHANNEL_EMAIL && !p.prefers_email) ||
                 (ch == CHANNEL_IN_APP && !p.prefers_in_app)) = false := by
        rw [Bool.or_eq_false_iff]
        constructor
        · by_cases h1 : ch = CHANNEL_EMAIL
          · by_cases h2 : p.prefers_email = false
            · exact absurd (Or.inl ⟨h1, h2⟩) hveto
            · simp at h2; simp [h2]
          · simp [h1]
        · by_cases h1 : ch = CHANNEL_IN_APP
          · by_cases h2 : p.prefers_in_app = false
            · exact absurd (Or.inr ⟨h1, h2⟩) hveto
            · simp at h2; simp [h2]
          · simp [h1]
      simp [enqueue, hp, hb]
  · intro hp
    simp [enqueue, hp]

/-- Witness for C4: a recipient with email opted out is skipped; a
recipient with no preference record gets exactly one row. -/
theorem c4_enqueue_preference_gate_witness :
    let p0 : UserCommunicationPreference :=
      { user_id := 9, prefers_email := false, prefers_in_app := true,
        default_channel := "in_app" }
    enqueue [p0] 50 1 [] 9 "email" [] "t" = (Option.none, [])
    ∧ enqueue [] 50 1 [] 9 "email" [] "t" =
        (some 1, [mkJob 1 50 9 "email" [] "t"]) := by
  refine ⟨?_, ?_⟩
  · exact ((c4_enqueue_preference_gate
      [{ user_id := 9, prefers_email := false, prefers_in_app := true,
         default_channel := "in_app" }] 50 1 [] 9 "email" [] "t").1
      { user_id := 9, prefers_email := false, prefers_in_app := true,
        default_channel := "in_app" } (by decide)).1 (Or.inl ⟨rfl, rfl⟩)
  · exact (c4_enqueue_preference_gate [] 50 1 [] 9 "email" [] "t").2.1 rfl

/-- C10: the consumer looks the read-ack job id up inside the message
payload itself; the worker passes job.message_data through unchanged as
that payload; so when the payload has no "job_id" key the consumer still
transmits the frame (whose JSON carries only type and data) but changes
no job row, and the connect replay afterwards is exactly what it was
before: the delivered job stays unread and replayable. -/
theorem c10_missing_job_id_no_read_ack (md : MessageData)
    (store : List NotificationJob)
    (hmd : md.find? (fun kv => kv.1 == "job_id") = Option.none) :
    (send_notification md store).1 =
      { type := "notification", data := md, job_id := Option.none }
    ∧ (send_notification md store).2 = store
    ∧ (∀ uid, consumer_connect true uid (send_notification md store).2 =
        consumer_connect true uid store)
    ∧ (∀ job : NotificationJob, workerDispatchArgs job =
        [CallArg.val (PyValue.int job.recipient_id), CallArg.dict job.message_data,
         CallArg.val (PyValue.int job.id)]) := by
  have hget : dictGet md "job_id" = PyValue.none := by
    unfold dictGet
    rw [hmd]
  have hsend : send_notification md store =
      ({ type := "notification", data := md, job_id := Option.none }, store) := by
    unfold send_notification
    rw [hget]
    rfl
  refine ⟨by rw [hsend], by rw [hsend], ?_, fun job => rfl⟩
  intro uid
  rw [hsend]

/-- Witness for C10 at a concrete payload without a "job_id" key and a
one-row table holding a delivered unread in-app job. -/
theorem c10_missing_job_id_no_read_ack_witness :
    let j : NotificationJob :=
      { id := 1, recipient_id := 7, channel := "in_app",
        notification_type := "t",
        message_data := [("title", PyValue.str "Hello")], status := "sent",
        retries_count := 0, max_retries := 3, failed_reason := Option.none,
        scheduled_at := 100, sent_at := some 200, created_at := 100,
        is_read := false }
    (send_notification [("title", PyValue.str "Hello")] [j]).1 =
      { type := "notification", data := [("title", PyValue.str "Hello")],
        job_id := Option.none }
    ∧ (send_notification [("title", PyValue.str "Hello")] [j]).2 = [j] := by
  refine ⟨?_, ?_⟩
  · exact (c10_missing_job_id_no_read_ack [("title", PyValue.str "Hello")]
      _ (by decide)).1
  · exact (c10_missing_job_id_no_read_ack [("title", PyValue.str "Hello")]
      [{ id := 1, recipient_id := 7, channel := "in_app",
         notification_type := "t",
         message_data := [("title", PyValue.str "Hello")], status := "sent",
         retries_count := 0, max_retries := 3, failed_reason := Option.none,
         scheduled_at := 100, sent_at := some 200, created_at := 100,
         is_read := false }] (by decide)).2.1

/-- C6: an unauthenticated connect is rejected with no frame and no
change to the job table; an authenticated connect is accepted and replays
exactly the SENT unread IN_APP jobs of that recipient, oldest first by
creation time, one "notification_missed" frame carrying each job id, and
each replayed job ends up marked read in the table; marking an
already-read job is a no-op. -/
theorem c6_connect_replay (uid : Int) (store : List NotificationJob)
    (hnodup : (store.map (fun j => j.id)).Nodup) :
    consumer_connect false uid store =
      { accepted := false, frames := [], store := store }
    ∧ (consumer_connect true uid store).accepted = true
    ∧ (consumer_connect true uid store).frames =
        (missedNotifications uid store).map missedFrame
    ∧ List.Sorted createdLE (missedNotifications uid store)
    ∧ (∀ j ∈ store, missedFilter uid j = true →
        { j with is_read := true } ∈ (consumer_connect true uid store).store)
    ∧ (∀ jid j, store.find? (fun x => x.id == jid) = some j → j.is_read = true →
        markNotificationRead store jid = store) := by
  refine ⟨rfl, rfl, rfl, List.sorted_insertionSort createdLE _, ?_, ?_⟩
  · intro j hj hfilt
    have hperm : List.Perm (missedNotifications uid store)
        (store.filter (missedFilter uid)) :=
      List.perm_insertionSort createdLE _
    have hjmissed : j ∈ missedNotifications uid store :=
      hperm.mem_iff.mpr (List.mem_filter.mpr ⟨hj, hfilt⟩)
    have hmsnodup : ((missedNotifications uid store).map (fun x => x.id)).Nodup := by
      have hsubmap : List.Sublist
          ((store.filter (missedFilter uid)).map (fun x => x.id))
          (store.map (fun x => x.id)) :=
        (List.filter_sublist store).map _
      have h1 : ((store.filter (missedFilter uid)).map (fun x => x.id)).Nodup :=
        List.Nodup.sublist hsubmap hnodup
      exact ((hperm.map _).nodup_iff).mpr h1
    have hsub : ∀ x ∈ missedNotifications uid store,
        x ∈ store ∧ x.is_read = false := by
      intro x hx
      have hxf : x ∈ store.filter (missedFilter uid) := hperm.mem_iff.mp hx
      obtain ⟨hxs, hxp⟩ := List.mem_filter.mp hxf
      refine ⟨hxs, ?_⟩
      unfold missedFilter at hxp
      simp only [Bool.and_eq_true, Bool.not_eq_true'] at hxp
      exact hxp.2
    exact mark_foldl_marks hnodup hsub hmsnodup j hjmissed
  · intro jid j hfind hread
    exact markNotificationRead_noop hfind hread

set_option maxRecDepth 8000 in
/-- Witness for C6: a recipient with one unread SENT in-app job gets it
replayed on connect and marked read; an unauthenticated connect changes
nothing. -/
theorem c6_connect_replay_witness :
    let j : NotificationJob :=
      { id := 1, recipient_id := 7, channel := "in_app",
        notification_type := "t",
        message_data := [("title", PyValue.str "Hello")], status := "sent",
        retries_count := 0, max_retries := 3, failed_reason := Option.none,
        scheduled_at := 100, sent_at := some 200, created_at := 100,
        is_read := false }
    { j with is_read := true } ∈ (consumer_connect true 7 [j]).store
    ∧ consumer_connect false 7 [j] =
        { accepted := false, frames := [], store := [j] } := by
  refine ⟨?_, ?_⟩
  · exact (c6_connect_replay 7
      [{ id := 1, recipient_id := 7, channel := "in_app",
         notification_type := "t",
         message_data := [("title", PyValue.str "Hello")], status := "sent",
         retries_count := 0, max_retries := 3, failed_reason := Option.none,
         scheduled_at := 100, sent_at := some 200, created_at := 100,
         is_read := false }] (by decide)).2.2.2.2.1 _
      (by decide) (by decide)
  · exact (c6_connect_replay 7
      [{ id := 1, recipient_id := 7, channel := "in_app",
         notification_type := "t",
         message_data := [("title", PyValue.str "Hello")], status := "sent",
         retries_count := 0, max_retries := 3, failed_reason := Option.none,
         scheduled_at := 100, sent_at := some 200, created_at := 100,
         is_read := false }] (by decide)).1

/-- C8: the set of rows a single worker pass claims is exactly an initial
segment of the eligible rows (status PENDING, scheduled_at at or before
now) ordered by scheduled_at ascending, of size at most the batch size;
every claimed row is eligible, and every stored row that is not eligible
is neither claimed nor modified by the pass. -/
theorem c8_claim_batch_shape
    (send : HandlerClass → Int → MessageData → Int → Except String Unit)
    (now : Int) (batchSize : Nat) (store : List NotificationJob)
    (hnodup : (store.map (fun j => j.id)).Nodup) :
    (∃ rest, List.insertionSort schedLE (store.filter (eligible now)) =
       claimBatch now batchSize store ++ rest)
    ∧ (claimBatch now batchSize store).length ≤ batchSize
    ∧ (∀ j ∈ claimBatch now batchSize store, eligible now j = true)
    ∧ List.Sorted schedLE (claimBatch now batchSize store)
    ∧ (∀ x ∈ store, eligible now x = false →
        x ∉ claimBatch now batchSize store ∧
        x ∈ process_pending_jobs send now batchSize store) := by
  refine ⟨?_, ?_, ?_, ?_, ?_⟩
  · refine ⟨(List.insertionSort schedLE (store.filter (eligible now))).drop batchSize, ?_⟩
    rw [claimBatch_eq]
    exact (List.take_append_drop batchSize _).symm
  · rw [claimBatch_eq]
    exact List.length_take_le batchSize _
  · intro j hj
    exact mem_claimBatch_eligible hj
  · rw [claimBatch_eq]
    exact List.Pairwise.sublist (List.take_sublist _ _)
      (List.sorted_insertionSort schedLE _)
  · intro x hx hxe
    have hnotclaim : x ∉ claimBatch now batchSize store := by
      intro hmem
      rw [mem_claimBatch_eligible hmem] at hxe
      exact absurd hxe (by decide)
    refine ⟨hnotclaim, ?_⟩
    unfold process_pending_jobs
    apply pass_foldl_preserve send now hx
    intro c hc hid
    have hcs : c ∈ store := mem_claimBatch_mem_store hc
    have hxc : x = c := List.inj_on_of_nodup_map hnodup hx hcs hid
    rw [hxc] at hxe
    rw [mem_claimBatch_eligible hc] at hxe
    exact absurd hxe (by decide)

/-- Witness for C8 at a two-row table where only one row is eligible. -/
theorem c8_claim_batch_shape_witness :
    let j1 : NotificationJob :=
      { id := 1, recipient_id := 7, channel := "email",
        notification_type := "t", message_data := [], status := "pending",
        retries_count := 0, max_retries := 3, failed_reason := Option.none,
        scheduled_at := 100, sent_at := Option.none, created_at := 100,
        is_read := false }
    let j2 : NotificationJob :=
      { id := 2, recipient_id := 8, channel := "email",
        notification_type := "t", message_data := [], status := "sent",
        retries_count := 0, max_retries := 3, failed_reason := Option.none,
        scheduled_at := 50, sent_at := some 60, created_at := 50,
        is_read := false }
    (claimBatch 200 10 [j1, j2]).length ≤ 10
    ∧ (j2 ∉ claimBatch 200 10 [j1, j2] ∧
       j2 ∈ process_pending_jobs (fun _ _ _ _ => Except.ok ()) 200 10 [j1, j2]) := by
  refine ⟨?_, ?_⟩
  · exact (c8_claim_batch_shape (fun _ _ _ _ => Except.ok ()) 200 10 _
      (by decide)).2.1
  · exact (c8_claim_batch_shape (fun _ _ _ _ => Except.ok ()) 200 10 _
      (by decide)).2.2.2.2 _ (by decide) (by decide)

/-- C9: under the skip-locked claim semantics of
`select_for_update(skip_locked=True)`, a second worker claiming while the
first worker still holds its row locks obtains a batch disjoint from the
first batch: every row of the second batch has an id outside the locked
set, so a job claimed by the first worker is never claimed by the second,
and only the first worker persists SENDING on it (its first persisted
write for that row is the SENDING one). -/
theorem c9_skip_locked_mutual_exclusion
    (send : HandlerClass → Int → MessageData → Int → Except String Unit)
    (now : Int) (batchSize : Nat) (store : List NotificationJob)
    (j : NotificationJob)
    (h1 : j ∈ claimBatchLocked now batchSize [] store) :
    (∀ x ∈ claimBatchLocked now batchSize
        ((claimBatchLocked now batchSize [] store).map (fun c => c.id)) store,
      x.id ∉ (claimBatchLocked now batchSize [] store).map (fun c => c.id))
    ∧ j ∉ claimBatchLocked now batchSize
        ((claimBatchLocked now batchSize [] store).map (fun c => c.id)) store
    ∧ (processOneJob send now j).head? = some { j with status := STATUS_SENDING } := by
  have hmem2 : ∀ (locked : List Int), ∀ x ∈ claimBatchLocked now batchSize locked store,
      (eligible now x && !(locked.contains x.id)) = true := by
    intro locked x hx
    unfold claimBatchLocked at hx
    have hx1 : x ∈ List.insertionSort schedLE
        (store.filter (fun k => eligible now k && !(locked.contains k.id))) :=
      List.mem_of_mem_take hx
    have hx2 := (List.perm_insertionSort schedLE _).mem_iff.mp hx1
    exact (List.mem_filter.mp hx2).2
  have hdisj : ∀ x ∈ claimBatchLocked now batchSize
      ((claimBatchLocked now batchSize [] store).map (fun c => c.id)) store,
      x.id ∉ (claimBatchLocked now batchSize [] store).map (fun c => c.id) := by
    intro x hx
    have hp := hmem2 _ x hx
    rw [Bool.and_eq_true] at hp
    rcases hp with ⟨_, hnc⟩
    rw [Bool.not_eq_true'] at hnc
    intro hcontra
    simp [List.elem_eq_mem, hcontra] at hnc
  refine ⟨hdisj, ?_, ?_⟩
  · intro hj2
    exact hdisj j hj2 (List.mem_map.mpr ⟨j, h1, rfl⟩)
  · have hp := hmem2 [] j h1
    rw [Bool.and_eq_true] at hp
    rcases hp with ⟨he, _⟩
    rw [eligible, Bool.and_eq_true] at he
    rcases he with ⟨hst, _⟩
    exact processOneJob_head send now j (by simpa using hst)

/-- Witness for C9: with a one-row table, the first worker claims the row
and the second worker, claiming while the lock is held, gets nothing. -/
theorem c9_skip_locked_mutual_exclusion_witness :
    let j : NotificationJob :=
      { id := 1, recipient_id := 7, channel := "email",
        notification_type := "t", message_data := [], status := "pending",
        retries_count := 0, max_retries := 3, failed_reason := Option.none,
        scheduled_at := 100, sent_at := Option.none, created_at := 100,
        is_read := false }
    j ∉ claimBatchLocked 200 10
        ((claimBatchLocked 200 10 [] [j]).map (fun c => c.id)) [j]
    ∧ (processOneJob (fun _ _ _ _ => Except.ok ()) 200 j).head? =
        some { j with status := STATUS_SENDING } := by
  refine ⟨?_, ?_⟩
  · exact (c9_skip_locked_mutual_exclusion (fun _ _ _ _ => Except.ok ()) 200 10
      [{ id := 1, recipient_id := 7, channel := "email",
         notification_type := "t", message_data := [], status := "pending",
         retries_count := 0, max_retries := 3, failed_reason := Option.none,
         scheduled_at := 100, sent_at := Option.none, created_at := 100,
         is_read := false }] _ (by decide)).2.1
  · exact (c9_skip_locked_mutual_exclusion (fun _ _ _ _ => Except.ok ()) 200 10
      [{ id := 1, recipient_id := 7, channel := "email",
         notification_type := "t", message_data := [], status := "pending",
         retries_count := 0, max_retries := 3, failed_reason := Option.none,
         scheduled_at := 100, sent_at := Option.none, created_at := 100,
         is_read := false }] _ (by decide)).2.2


/-- C3: a pending job with retries_count 0 and max_retries 3 whose
handler call raises on every attempt is FAILED with retries_count 3 after
exactly three worker passes, and a further pass leaves the table
unchanged.  (Each pass immediately re-claims the job because the retry
write never persists the backoff.) -/
theorem c3_always_raising_reaches_failed
    (send : HandlerClass → Int → MessageData → Int → Except String Unit)
    (now : Int) (j : NotificationJob) (hcl : HandlerClass)
    (hst : j.status = STATUS_PENDING) (hsch : j.scheduled_at ≤ now)
    (hr0 : j.retries_count = 0) (hm : j.max_retries = 3)
    (hch : DELIVERY_HANDLERS_get j.channel = some hcl)
    (hraise : ∀ hc rid md jid, ∃ e, send hc rid md jid = Except.error e) :
    ∃ k : NotificationJob,
      process_pending_jobs send now 10
        (process_pending_jobs send now 10
          (process_pending_jobs send now 10 [j])) = [k]
      ∧ k.status = STATUS_FAILED ∧ k.retries_count = 3
      ∧ process_pending_jobs send now 10 [k] = [k] := by
  obtain ⟨e1, he1⟩ := hraise hcl j.recipient_id j.message_data j.id
  have he : eligible now j = true := by
    unfold eligible
    rw [hst]
    simp [hsch]
  have hpass1 : process_pending_jobs send now 10 [j] = [finalRow send now j] :=
    pass_singleton send now 10 j (by norm_num) he
  have hfr1 : finalRow send now j =
      { j with
          status := STATUS_PENDING,
          retries_count := 1,
          failed_reason := some (truncate255 e1) } := by
    rw [finalRow_err send now j hcl e1 hst hch he1]
    rw [hr0, hm]
    simp
  have he2 : eligible now
      { j with
          status := STATUS_PENDING,
          retries_count := 1,
          failed_reason := some (truncate255 e1) } = true := by
    simp [eligible, hsch]
  have hpass2 : process_pending_jobs send now 10
      [{ j with
           status := STATUS_PENDING,
           retries_count := 1,
           failed_reason := some (truncate255 e1) }] =
      [finalRow send now
        { j with
            status := STATUS_PENDING,
            retries_count := 1,
            failed_reason := some (truncate255 e1) }] :=
    pass_singleton send now 10 _ (by norm_num) he2
  have hfr2 : finalRow send now
      { j with
          status := STATUS_PENDING,
          retries_count := 1,
          failed_reason := some (truncate255 e1) } =
      { j with
          status := STATUS_PENDING,
          retries_count := 2,
          failed_reason := some (truncate255 e1) } := by
    rw [finalRow_err send now
      { j with
          status := STATUS_PENDING,
          retries_count := 1,
          failed_reason := some (truncate255 e1) } hcl e1 rfl hch he1]
    simp [hm]
  have he3 : eligible now
      { j with
          status := STATUS_PENDING,
          retries_count := 2,
          failed_reason := some (truncate255 e1) } = true := by
    simp [eligible, hsch]
  have hpass3 : process_pending_jobs send now 10
      [{ j with
           status := STATUS_PENDING,
           retries_count := 2,
           failed_reason := some (truncate255 e1) }] =
      [finalRow send now
        { j with
            status := STATUS_PENDING,
            retries_count := 2,
            failed_reason := some (truncate255 e1) }] :=
    pass_singleton send now 10 _ (by norm_num) he3
  have hfr3 : finalRow send now
      { j with
          status := STATUS_PENDING,
          retries_count := 2,
          failed_reason := some (truncate255 e1) } =
      { j with
          status := STATUS_FAILED,
          retries_count := 3,
          failed_reason := some (truncate255 e1) } := by
    rw [finalRow_err send now
      { j with
          status := STATUS_PENDING,
          retries_count := 2,
          failed_reason := some (truncate255 e1) } hcl e1 rfl hch he1]
    simp [hm]
  refine ⟨{ j with
              status := STATUS_FAILED,
              retries_count := 3,
              failed_reason := some (truncate255 e1) }, ?_, rfl, rfl, ?_⟩
  · rw [hpass1, hfr1, hpass2, hfr2, hpass3, hfr3]
  · apply pass_no_eligible
    intro x hx
    rw [List.mem_singleton.mp hx]
    simp [eligible, STATUS_FAILED, STATUS_PENDING]

/-- Witness for C3 at a concrete job and an always-raising handler
outcome. -/
theorem c3_always_raising_reaches_failed_witness :
    ∃ k : NotificationJob,
      process_pending_jobs (fun _ _ _ _ => Except.error "boom") 200 10
        (process_pending_jobs (fun _ _ _ _ => Except.error "boom") 200 10
          (process_pending_jobs (fun _ _ _ _ => Except.error "boom") 200 10
            [{ id := 1, recipient_id := 7, channel := "email",
               notification_type := "t", message_data := [],
               status := "pending", retries_count := 0, max_retries := 3,
               failed_reason := Option.none, scheduled_at := 100,
               sent_at := Option.none, created_at := 100,
               is_read := false }])) = [k]
      ∧ k.status = STATUS_FAILED ∧ k.retries_count = 3
      ∧ process_pending_jobs (fun _ _ _ _ => Except.error "boom") 200 10 [k] = [k] := by
  exact c3_always_raising_reaches_failed (fun _ _ _ _ => Except.error "boom") 200
    _ HandlerClass.EmailDeliveryHandler rfl (by decide) rfl rfl rfl
    (fun _ _ _ _ => ⟨"boom", rfl⟩)
